import Mathlib

/-!
Verification of the supply orchestrator of the ruby-freetds buildpack
(`src/ruby/supply/supply.go`), via a shallow embedding in Lean 4.

Modelling conventions, stated once here:

* File-system paths are lists of components (`FPath := List String`); the
  dependency area root (`Stager.DepDir()`) is the abstract constant `depDir`.
* The set of files present is a `List FPath`; `os.RemoveAll` on such a model
  always succeeds (it is a pure filter), matching its behaviour on a healthy
  file system.  `os.MkdirAll` is a no-op because only files are tracked.
* External collaborators (libbuildpack's `FindMatchingVersion`, the
  `Installer`, `Command`, `Versions`, `TempDir` and `Stager` interfaces, and
  raw OS probes such as `FileExists`) are consumed through an `Oracle`
  record: each call site reads the oracle's answer for that call, which may
  be an `Except String` failure exactly where the Go interface returns an
  `error`.
* The mutable `Supplier` receiver plus the process environment and the
  written env files form the state `St`; every modelled method is a function
  `Oracle → St → St × Except String α`, returning the updated state even on
  the error path (Go side effects persist when an error is returned).
* Externally observable calls are recorded in `St.trace` (one `Event` per
  call), warnings in `St.warnings`; both are appended in program order.
* `crypto/md5` is idealised as an injective function of the byte stream fed
  to it, so the digest of `CalcChecksum` is modelled as that byte stream
  itself; the path component of the stream is serialised by character code
  points.
-/

/-- FPath in the modelled file system: a list of components. -/
abbrev FPath := List String

/-- `libbuildpack.Dependency`: a resolved name/version pair. -/
structure Dependency where
  name : String
  version : String
deriving DecidableEq

/-- One externally observable call made by the supplier. -/
inductive Event where
  /-- `Installer.InstallDependency(dep, dir)` was invoked. -/
  | installDependency (dep : Dependency) (dir : FPath)
  /-- `Stager.LinkDirectoryInDepDir(dir, "bin")` was invoked. -/
  | linkDirectoryInDepDir (dir : FPath)
  /-- `Versions.CheckBundler2Compatibility()` was invoked. -/
  | checkBundlerCompat
  /-- `Versions.HasGemVersion(gem, ">=0.0.0")` was invoked. -/
  | hasGemVersionProbe (gem : String)
  /-- `TempDir.CopyDirToTemp(BuildDir)` succeeded, yielding this scratch dir. -/
  | copyDirToTemp (dir : FPath)
  /-- An external `bundle`/OS command was run (`Command.Run`). -/
  | runCommand (cmd : String)
  /-- `.bundle/config` was copied from the build dir into the scratch copy. -/
  | copyBundleConfigIntoScratch
  /-- One binstub was copied from `deps/binstubs` to `deps/bin`. -/
  | copyBinstub (name : String)
deriving DecidableEq

/-- Result of `ioutil.ReadDir`: distinguishes `os.IsNotExist` errors,
which `InstallGems` tolerates, from other errors. -/
inductive ReadDirErr where
  | notExist
  | other (msg : String)
deriving DecidableEq

/-- The mutable state of one supply run: the `Supplier` receiver's fields,
the modelled file system, the scratch directories currently in existence,
the process environment, the per-variable env files written through
`Stager.WriteEnvFile`, and the warning / call traces. -/
structure St where
  appHasGemfile : Bool
  appHasGemfileLock : Bool
  bundlerVersion : String
  cachedNeedsNode : Bool
  needsNode : Bool
  fs : List FPath
  scratchDirs : List FPath
  env : String → Option String
  envFiles : String → Option String
  warnings : List String
  trace : List Event

/-- Append one event to the call trace. -/
def St.logEvent (st : St) (e : Event) : St :=
  { st with trace := st.trace ++ [e] }

/-- `Log.Warning`: append one warning. -/
def St.warn (st : St) (msg : String) : St :=
  { st with warnings := st.warnings ++ [msg] }

/-- `Versions.SetBundlerVersion`. -/
def St.setBundlerVersion (st : St) (v : String) : St :=
  { st with bundlerVersion := v }

/-- Materialise the (relative) files of an installed archive under `dir`. -/
def St.addFilesUnder (st : St) (dir : FPath) (rels : List FPath) : St :=
  { st with fs := st.fs ++ rels.map (fun r => dir ++ r) }

/-- `os.RemoveAll p`: drop every file at or below `p` (always succeeds in
the file-set model). -/
def St.removeAllUnder (st : St) (p : FPath) : St :=
  { st with fs := st.fs.filter (fun q => !(p.isPrefixOf q)) }

/-- `os.Getenv`: the empty string when the variable is absent. -/
def getenv (st : St) (v : String) : String :=
  (st.env v).getD ""

/-- `os.Setenv`. -/
def setenvSt (v d : String) (st : St) : St :=
  { st with env := fun k => if k = v then some d else st.env k }

/-- `Stager.WriteEnvFile v d`: write the env file named `v` with content `d`
(modelled as infallible; a rewrite overwrites that file only). -/
def writeEnvFileSt (v d : String) (st : St) : St :=
  { st with envFiles := fun k => if k = v then some d else st.envFiles k }

/-! ## Environment materializer (`writeEnvFiles`, supply.go:777-787)

Go iterates the `map[string]string` in unspecified order; the model takes
the entries as a list and iterates in list order. -/

/-- `Supplier.writeEnvFiles(environment, clobber)`: for each entry, when the
variable's current `os.Getenv` value is empty or `clobber` is set, call
`os.Setenv` and `Stager.WriteEnvFile`. -/
def writeEnvFiles (environment : List (String × String)) (clobber : Bool) (st : St) : St :=
  match environment with
  | [] => st
  | (envVar, envDefault) :: rest =>
    if getenv st envVar = "" || clobber then
      writeEnvFiles rest clobber (writeEnvFileSt envVar envDefault (setenvSt envVar envDefault st))
    else
      writeEnvFiles rest clobber st

/-! ## Fingerprint engine (`CalcChecksum`, supply.go:836-865)

`filepath.Walk` feeds, for every regular file outside `.cloudfoundry/`, the
relative path string followed by the file's bytes into an md5 hash.  The
walk order is fixed by the tree, so the tree is given as the list of regular
files in walk order.  The md5 digest is idealised as the byte stream itself
(md5 treated as injective in its input). -/

/-- One regular file of the staging tree: relative path and content bytes. -/
structure FileEntry where
  relpath : String
  contents : List Nat
deriving DecidableEq

/-- The exclusion test of `CalcChecksum`:
`strings.HasPrefix(relpath, ".cloudfoundry/")`, stated on the character
lists of the two strings. -/
def excludedPath (relpath : String) : Bool :=
  ".cloudfoundry/".data.isPrefixOf relpath.data

/-- Serialisation of the relative-path string written into the hash. -/
def pathBytes (s : String) : List Nat :=
  s.data.map Char.toNat

/-- The bytes one file contributes to the hash: its relative path followed
by its raw contents. -/
def entryBytes (f : FileEntry) : List Nat :=
  pathBytes f.relpath ++ f.contents

/-- The byte stream `CalcChecksum` feeds into md5, walking the files in
order and skipping the excluded subtree. -/
def checksumStream : List FileEntry → List Nat
  | [] => []
  | f :: rest =>
    (if excludedPath f.relpath then [] else entryBytes f) ++ checksumStream rest

/-- `Supplier.CalcChecksum`: the digest, with md5 idealised as injective,
is determined by (and modelled as) the hashed byte stream. -/
def CalcChecksum (tree : List FileEntry) : List Nat :=
  checksumStream tree

/-! ## `IndentedWriter.Write` (supply.go:555-567)

The method pads every line of its input and then calls itself (`w.Write`,
not `w.w.Write`).  The recursion is modelled with explicit fuel; the bytes
received by the wrapped writer are threaded as `out` (and are never
extended, because no call to the wrapped writer occurs in the body). -/

structure IndentedWriter where
  pad : String

/-- The padding step of `IndentedWriter.Write`: split on newlines, prepend
the pad to every line, rejoin. -/
def padLines (pad : String) (p : String) : String :=
  String.intercalate "\n" ((p.splitOn "\n").map (fun line => pad ++ line))

/-- Fuel-indexed evaluation of `IndentedWriter.Write`.  Each unfolding of
the body re-pads the input and recurses into `w.Write` itself; `none` means
the computation did not finish within the given fuel.  `out` is the list of
strings written to the wrapped writer `w.w` so far. -/
def IndentedWriter.writeFuel (w : IndentedWriter) :
    Nat → String → List String → Option Nat × List String
  | 0, _, out => (none, out)
  | fuel + 1, p, out => w.writeFuel fuel (padLines w.pad p) out

/-! ## The oracle of external collaborators

Every interface call and OS probe the supplier makes is answered by this
record.  A field of type `Except String α` models a Go call returning
`(α, error)`; calls made at distinct program points get distinct fields, so
the external world may answer differently at each point. -/

structure Oracle where
  /-- `Manifest.AllDependencyVersions("bundler")`. -/
  bundlerVersions : List String
  /-- `libbuildpack.FindMatchingVersion(constraint, versions)` (external). -/
  findMatchingVersion : String → List String → Option String
  /-- `Manifest.DefaultVersion(name)`. -/
  defaultVersion : String → Except String Dependency
  /-- Whether `Installer.InstallDependency(dep, dir)` succeeds. -/
  installDependencyRes : Dependency → FPath → Except String Unit
  /-- The relative files a successful install of `dep` materialises. -/
  installFiles : Dependency → List FPath
  /-- Whether `Stager.LinkDirectoryInDepDir(dir, "bin")` succeeds. -/
  linkDirRes : FPath → Except String Unit
  /-- `Versions.CheckBundler2Compatibility()`. -/
  checkBundler2Compat : Except String Bool
  /-- `Versions.Engine()`. -/
  engine : Except String String
  /-- `Versions.Version()`. -/
  version : Except String String
  /-- `Versions.JrubyVersion()`. -/
  jrubyVersion : Except String String
  /-- `Versions.HasGemVersion(gem, ">=0.0.0")` (the `NeedsNode` probes). -/
  hasGemVersion : String → Except String Bool
  /-- Result of the `node --version` probe (`isNodeInstalled`). -/
  nodeInstalled : Bool
  /-- `FileExists(BuildDir/.bundle/config)` (the `warnBundleConfig` probe). -/
  buildBundleConfigExists : Except String Bool
  /-- The Gemfile is readable and contains a CRLF (`warnWindowsGemfile`). -/
  gemfileHasCRLF : Bool
  /-- `TempDir.CopyDirToTemp(BuildDir)`: the scratch path, or an error. -/
  copyDirToTemp : Except String FPath
  /-- `filepath.Rel(BuildDir, Gemfile)`. -/
  relGemfile : Except String String
  /-- `Versions.HasWindowsGemfileLock()`. -/
  hasWindowsGemfileLock : Except String Bool
  /-- Whether `os.Remove(gemfileLock)` succeeds. -/
  removeLockRes : Except String Unit
  /-- `FileExists(tempDir/.bundle/config)` before the install. -/
  tempBundleConfigExists : Except String Bool
  /-- `FileExists(gemfileLock)` when deciding to pass `--deployment`. -/
  gemfileLockExistsPre : Except String Bool
  /-- Whether `Command.Run(bundle install ...)` succeeds. -/
  runBundleInstall : Except String Unit
  /-- Whether `Command.Run(bundle binstubs bundler --force ...)` succeeds. -/
  runBundleBinstubs : Except String Unit
  /-- Whether `CopyFile(deps/binstubs/bundle, deps/bin/bundle)` succeeds. -/
  copyBundleBinstub : Except String Unit
  /-- Whether `Command.Run(bundle clean)` succeeds. -/
  runBundleClean : Except String Unit
  /-- `ioutil.ReadDir(deps/binstubs)`: entry names, not-exist, or error. -/
  readBinstubs : Except ReadDirErr (List String)
  /-- `FileExists(deps/bin/<name>)` for one binstub entry. -/
  binTargetExists : String → Except String Bool
  /-- Whether `CopyFile(deps/binstubs/<name>, deps/bin/<name>)` succeeds. -/
  copyBinstub : String → Except String Unit
  /-- `FileExists(tempDir/.bundle/config)` after the install. -/
  tempBundleConfigExistsPost : Except String Bool
  /-- Whether `os.Rename(tempDir/.bundle/config, $BUNDLE_CONFIG)` succeeds. -/
  renameBundleConfig : Except String Unit
  /-- `FileExists(gemfileLock)` when saving the lock for finalize. -/
  gemfileLockExistsPost : Except String Bool
  /-- Whether `CopyFile(gemfileLock, deps/Gemfile.lock)` succeeds. -/
  copyGemfileLock : Except String Unit

/-- The dependency area root, `Stager.DepDir()` (abstract constant). -/
def depDir : FPath := ["deps"]

/-! ## `DetermineRuby` (supply.go:244-281) -/

/-- The warning recorded when the Gemfile declares no ruby version. -/
def rubyVersionWarning (v : String) : String :=
  "You have not declared a Ruby version in your Gemfile. Defaulting to " ++ v

/-- `Supplier.DetermineRuby`: resolve the runtime engine and version. -/
def DetermineRuby (o : Oracle) (st : St) : St × Except String (String × String) :=
  if !st.appHasGemfile then
    match o.defaultVersion "ruby" with
    | .error e => (st, .error ("unable to determine default ruby version: " ++ e))
    | .ok dep => (st, .ok ("ruby", dep.version))
  else
    match o.engine with
    | .error e => (st, .error ("unable to determine ruby engine: " ++ e))
    | .ok engine =>
      if engine = "ruby" then
        match o.version with
        | .error e => (st, .error ("Unable to determine ruby version: " ++ e))
        | .ok rubyVersion =>
          if rubyVersion = "" then
            match o.defaultVersion "ruby" with
            | .error e => (st, .error ("Unable to determine ruby version: " ++ e))
            | .ok dep =>
              (st.warn (rubyVersionWarning dep.version), .ok ("ruby", dep.version))
          else
            (st, .ok ("ruby", rubyVersion))
      else if engine = "jruby" then
        match o.jrubyVersion with
        | .error e => (st, .error ("Unable to determine jruby version: " ++ e))
        | .ok v => (st, .ok ("jruby", v))
      else
        (st, .error ("Sorry, we do not support engine: " ++ engine))

/-! ## The compatibility negotiator
(`InstallBundler` and helpers, supply.go:313-339, 881-946) -/

/-- `libbuildpack.CopyDirectory(src, dst)`: copy every file below `src` to
the same relative location below `dst`; fails when `src` is absent. -/
def copyDirSt (src dst : FPath) (st : St) : St × Except String Unit :=
  let under := st.fs.filter (fun q => src.isPrefixOf q)
  if under.isEmpty then
    (st, .error "CopyDirectory: source does not exist")
  else
    ({ st with fs := st.fs ++ under.map (fun q => dst ++ q.drop src.length) }, .ok ())

/-- `libbuildpack.CopyFile(src, dst)`: copy one file; fails when absent. -/
def copyFileSt (src dst : FPath) (st : St) : St × Except String Unit :=
  if src ∈ st.fs then
    ({ st with fs := st.fs ++ [dst] }, .ok ())
  else
    (st, .error "CopyFile: source does not exist")

/-- `Supplier.installBundlerOne`: resolve the `1.X.X` bundler, install it
into `deps/bundler` and link its `bin` directory. -/
def installBundlerOne (o : Oracle) (st : St) : St × Except String String :=
  match o.findMatchingVersion "1.X.X" o.bundlerVersions with
  | none => (st, .error "failure to install Bundler matching constraint, 1.X.X")
  | some version =>
    let dep : Dependency := ⟨"bundler", version⟩
    let dir := depDir ++ ["bundler"]
    let st := st.logEvent (.installDependency dep dir)
    match o.installDependencyRes dep dir with
    | .error e => (st, .error e)
    | .ok _ =>
      let st := st.addFilesUnder dir (o.installFiles dep)
      let st := st.logEvent (.linkDirectoryInDepDir (dir ++ ["bin"]))
      match o.linkDirRes (dir ++ ["bin"]) with
      | .error e => (st, .error e)
      | .ok _ => (st, .ok version)

/-- `Supplier.installBundlerTwo`: resolve the `2.X.X` bundler, install it
into the side directory `deps/bundler2`, copy its gem subtree and gemspec
into the primary `deps/bundler` tree, and (by `defer os.RemoveAll`) drop
the side directory on every exit after the install succeeded. -/
def installBundlerTwo (o : Oracle) (st : St) : St × Except String String :=
  match o.findMatchingVersion "2.X.X" o.bundlerVersions with
  | none => (st, .error "failure to install Bundler matching constraint, 2.X.X")
  | some version =>
    let installDir := depDir ++ ["bundler2"]
    let dep : Dependency := ⟨"bundler", version⟩
    let st := st.logEvent (.installDependency dep installDir)
    match o.installDependencyRes dep installDir with
    | .error e => (st, .error e)
    | .ok _ =>
      let st := st.addFilesUnder installDir (o.installFiles dep)
      let gemName := "bundler-" ++ version
      let destDir := depDir ++ ["bundler", "gems", gemName]
      let rc := copyDirSt (installDir ++ ["gems", gemName]) destDir st
      match rc.2 with
      | .error e => (rc.1.removeAllUnder installDir, .error e)
      | .ok _ =>
        let rf := copyFileSt (installDir ++ ["specifications", gemName ++ ".gemspec"])
          (depDir ++ ["bundler", "specifications", gemName ++ ".gemspec"]) rc.1
        match rf.2 with
        | .error e => (rf.1.removeAllUnder installDir, .error e)
        | .ok _ => (rf.1.removeAllUnder installDir, .ok version)

/-- `Supplier.uninstallBundlerTwo`: re-resolve the `2.X.X` version and
remove its gem subtree and gemspec from the primary `deps/bundler` tree. -/
def uninstallBundlerTwo (o : Oracle) (st : St) : St × Except String Unit :=
  match o.findMatchingVersion "2.X.X" o.bundlerVersions with
  | none => (st, .error "failure to install Bundler matching constraint, 2.X.X")
  | some version =>
    let gemName := "bundler-" ++ version
    let st := st.removeAllUnder (depDir ++ ["bundler", "gems", gemName])
    let st := st.removeAllUnder (depDir ++ ["bundler", "specifications", gemName ++ ".gemspec"])
    (st, .ok ())

/-- The warning surfaced on a negative bundler-2 compatibility result. -/
def bundlerTwoWarning : String := "Ruby version not compatible with Bundler 2"

/-- `Supplier.InstallBundler`: install the primary bundler; when a Gemfile
is present, additionally install the secondary bundler, test compatibility,
and on a negative result warn, revert the active version and uninstall the
secondary. -/
def InstallBundler (o : Oracle) (st : St) : St × Except String Unit :=
  let r1 := installBundlerOne o st
  match r1.2 with
  | .error e => (r1.1, .error e)
  | .ok bundlerOneVersion =>
    let st := r1.1.setBundlerVersion bundlerOneVersion
    if !st.appHasGemfile then
      (st, .ok ())
    else
      let r2 := installBundlerTwo o st
      match r2.2 with
      | .error e => (r2.1, .error e)
      | .ok bundlerTwoVersion =>
        let st := r2.1.setBundlerVersion bundlerTwoVersion
        let st := st.logEvent .checkBundlerCompat
        match o.checkBundler2Compat with
        | .error e => (st, .error e)
        | .ok true => (st, .ok ())
        | .ok false =>
          let st := st.warn bundlerTwoWarning
          let st := st.setBundlerVersion bundlerOneVersion
          uninstallBundlerTwo o st

/-! ## `NeedsNode` (supply.go:368-395) -/

/-- The gem probe loop of `NeedsNode`: walk the gem names in order, asking
`Versions.HasGemVersion(name, ">=0.0.0")`; a positive answer sets
`needsNode` and stops; an error is discarded and the walk continues. -/
def needsNodeLoop (o : Oracle) : List String → St → St
  | [], st => st
  | name :: rest, st =>
    let st := st.logEvent (.hasGemVersionProbe name)
    match o.hasGemVersion name with
    | .ok true => { st with needsNode := true }
    | _ => needsNodeLoop o rest st

/-- `Supplier.NeedsNode`: memoised decision whether a node toolchain is
needed.  The first call probes (unless node is already installed) and
caches; later calls return the cached boolean. -/
def NeedsNode (o : Oracle) (st : St) : St × Bool :=
  if st.cachedNeedsNode then
    (st, st.needsNode)
  else
    let st := { st with cachedNeedsNode := true, needsNode := false }
    let st :=
      if o.nodeInstalled then st
      else needsNodeLoop o ["webpacker", "execjs"] st
    (st, st.needsNode)

/-! ## `InstallGems` (supply.go:587-702) and helpers

The function is split into sequential stages, one helper per block of the
source, composed in program order.  `tempDir` is the scratch copy returned
by `TempDir.CopyDirToTemp`. -/

/-- `Supplier.warnBundleConfig` (supply.go:875-879): warn when a
`.bundle/config` is checked into the build directory (probe errors are
discarded). -/
def warnBundleConfig (o : Oracle) (st : St) : St :=
  match o.buildBundleConfigExists with
  | .ok true => st.warn "You have the .bundle/config file checked into your repository"
  | _ => st

/-- `Supplier.warnWindowsGemfile` (supply.go:867-873): warn when the Gemfile
has Windows line endings (read errors are discarded). -/
def warnWindowsGemfile (o : Oracle) (st : St) : St :=
  if o.gemfileHasCRLF then
    st.warn "Windows line endings detected in Gemfile"
  else
    st

/-- The final statement of `InstallGems`:
`return os.RemoveAll(tempDir)` — drop the scratch directory and succeed. -/
def installGemsCleanup (tempDir : FPath) (st : St) : St × Except String Unit :=
  ({ st with scratchDirs := st.scratchDirs.filter (fun d => d ≠ tempDir) }, .ok ())

/-- Save the scratch `Gemfile.lock` for the finalize stage
(supply.go:690-699): on `FileExists` success-and-present copy it (copy
errors propagate); a `FileExists` error is only printed. -/
def installGemsSaveLock (o : Oracle) (tempDir : FPath) (st : St) : St × Except String Unit :=
  match o.gemfileLockExistsPost with
  | .ok true =>
    match o.copyGemfileLock with
    | .error e => (st, .error e)
    | .ok _ => installGemsCleanup tempDir st
  | _ => installGemsCleanup tempDir st

/-- Save a generated `.bundle/config` back to the global `$BUNDLE_CONFIG`
(supply.go:682-688): only on `FileExists` success-and-present; the rename
error propagates; a `FileExists` error is silently skipped. -/
def installGemsSaveConfig (o : Oracle) (tempDir : FPath) (st : St) : St × Except String Unit :=
  match o.tempBundleConfigExistsPost with
  | .ok true =>
    match o.renameBundleConfig with
    | .error e => (st, .error e)
    | .ok _ => installGemsSaveLock o tempDir st
  | _ => installGemsSaveLock o tempDir st

/-- The binstub copy loop of `InstallGems` (supply.go:669-680): for each
entry of `deps/binstubs`, copy it to `deps/bin` unless the target exists. -/
def copyBinstubsLoop (o : Oracle) : List String → St → St × Except String Unit
  | [], st => (st, .ok ())
  | name :: rest, st =>
    match o.binTargetExists name with
    | .error e => (st, .error ("Checking existence: " ++ e))
    | .ok true => copyBinstubsLoop o rest st
    | .ok false =>
      match o.copyBinstub name with
      | .error e => (st, .error ("CopyFile: " ++ e))
      | .ok _ => copyBinstubsLoop o rest (st.logEvent (.copyBinstub name))

/-- Stage of `InstallGems` after `bundle clean` (supply.go:663-702): read
the binstubs directory (tolerating absence), run the copy loop, then the
two save steps and the final cleanup. -/
def installGemsAfterClean (o : Oracle) (tempDir : FPath) (st : St) : St × Except String Unit :=
  match o.readBinstubs with
  | .error (.other e) => (st, .error ("Could not read dep/binstubs directory: " ++ e))
  | .error .notExist => installGemsSaveConfig o tempDir st
  | .ok names =>
    let rl := copyBinstubsLoop o names st
    match rl.2 with
    | .error e => (rl.1, .error e)
    | .ok _ => installGemsSaveConfig o tempDir rl.1

/-- Stage of `InstallGems` from the `bundle install` invocation on
(supply.go:638-702): run `bundle install`, regenerate the bundler binstub
(`regenerateBundlerBinStub`, supply.go:704-714), run `bundle clean`, then
continue with the binstub copy and save stages. -/
def installGemsRunBundler (o : Oracle) (tempDir : FPath) (st : St) : St × Except String Unit :=
  let st := st.logEvent (.runCommand "bundle install")
  match o.runBundleInstall with
  | .error e => (st, .error e)
  | .ok _ =>
    let st := st.logEvent (.runCommand "bundle binstubs bundler --force")
    match o.runBundleBinstubs with
    | .error e => (st, .error e)
    | .ok _ =>
      match o.copyBundleBinstub with
      | .error e => (st, .error e)
      | .ok _ =>
        let st := st.logEvent (.runCommand "bundle clean")
        match o.runBundleClean with
        | .error e => (st, .error e)
        | .ok _ => installGemsAfterClean o tempDir st

/-- Stage of `InstallGems` once the scratch copy exists and the lock path
is known (supply.go:605-702): Windows lock handling, `.bundle/config`
relocation, the `--deployment` probe, then the bundler stages. -/
def installGemsWithScratch (o : Oracle) (tempDir : FPath) (st : St) : St × Except String Unit :=
  match o.hasWindowsGemfileLock with
  | .error e => (st, .error e)
  | .ok hasWin =>
    let proceed : St → St × Except String Unit := fun st =>
      match o.tempBundleConfigExists with
      | .error e => (st, .error e)
      | .ok cfgExists =>
        let st := if cfgExists then st.logEvent .copyBundleConfigIntoScratch else st
        match o.gemfileLockExistsPre with
        | .error e => (st, .error e)
        | .ok _lockExists => installGemsRunBundler o tempDir st
    if hasWin then
      let st := st.warn "Removing Gemfile.lock because it was generated on Windows"
      match o.removeLockRes with
      | .error e => (st, .error ("Remove Gemfile.lock: " ++ e))
      | .ok _ => proceed st
    else
      proceed st

/-- `Supplier.InstallGems` (supply.go:587-702): no-op without a Gemfile;
otherwise warn, acquire the scratch copy of the build directory (a creation
failure and a `filepath.Rel` failure are swallowed as `nil`), and run the
bundler install pipeline inside the scratch copy. -/
def InstallGems (o : Oracle) (st : St) : St × Except String Unit :=
  if !st.appHasGemfile then
    (st, .ok ())
  else
    let st := warnBundleConfig o st
    let st := warnWindowsGemfile o st
    match o.copyDirToTemp with
    | .error _ => (st, .ok ())
    | .ok tempDir =>
      let st := { st with scratchDirs := st.scratchDirs ++ [tempDir] }
      let st := st.logEvent (.copyDirToTemp tempDir)
      match o.relGemfile with
      | .error _ => (st, .ok ())
      | .ok _rel => installGemsWithScratch o tempDir st

/-! ## Concrete oracle and state used by witnesses -/

/-- A fully-successful external world, used to instantiate witnesses. -/
def oracleBase : Oracle where
  bundlerVersions := ["1.7.12", "2.0.1"]
  findMatchingVersion := fun c _ =>
    if c = "1.X.X" then some "1.7.12" else if c = "2.X.X" then some "2.0.1" else none
  defaultVersion := fun name => .ok ⟨name, "2.6.3"⟩
  installDependencyRes := fun _ _ => .ok ()
  installFiles := fun dep =>
    [["gems", "bundler-" ++ dep.version, "lib", "bundler.rb"],
     ["specifications", "bundler-" ++ dep.version ++ ".gemspec"],
     ["bin", "bundle"]]
  linkDirRes := fun _ => .ok ()
  checkBundler2Compat := .ok true
  engine := .ok "ruby"
  version := .ok "2.6.3"
  jrubyVersion := .ok "9.2.0.0"
  hasGemVersion := fun _ => .ok false
  nodeInstalled := false
  buildBundleConfigExists := .ok false
  gemfileHasCRLF := false
  copyDirToTemp := .ok ["tmp", "app123"]
  relGemfile := .ok "Gemfile"
  hasWindowsGemfileLock := .ok false
  removeLockRes := .ok ()
  tempBundleConfigExists := .ok false
  gemfileLockExistsPre := .ok true
  runBundleInstall := .ok ()
  runBundleBinstubs := .ok ()
  copyBundleBinstub := .ok ()
  runBundleClean := .ok ()
  readBinstubs := .error .notExist
  binTargetExists := fun _ => .ok true
  copyBinstub := fun _ => .ok ()
  tempBundleConfigExistsPost := .ok false
  renameBundleConfig := .ok ()
  gemfileLockExistsPost := .ok true
  copyGemfileLock := .ok ()

/-- A fresh run state with a Gemfile present, used to instantiate
witnesses. -/
def stBase : St where
  appHasGemfile := true
  appHasGemfileLock := true
  bundlerVersion := ""
  cachedNeedsNode := false
  needsNode := false
  fs := []
  scratchDirs := []
  env := fun _ => none
  envFiles := fun _ => none
  warnings := []
  trace := []

/-! ## Claim C9 -/

/-- C9: `IndentedWriter.Write` never terminates.  For every fuel bound, the
fuel-indexed evaluation neither produces a result (the first component is
always `none`) nor writes anything to the wrapped writer (the output list
`out` is returned unchanged): the body unconditionally calls itself with
the re-padded input, so no amount of fuel reaches a base case. -/
theorem c9_indentedWriter_write_diverges (w : IndentedWriter) (fuel : Nat)
    (p : String) (out : List String) :
    w.writeFuel fuel p out = (none, out) := by
  induction fuel generalizing p with
  | zero => rfl
  | succ n ih => exact ih (padLines w.pad p)

/-! ## Claim C5 -/

/-- The hashed byte stream distributes over tree concatenation. -/
theorem checksumStream_append (a b : List FileEntry) :
    checksumStream (a ++ b) = checksumStream a ++ checksumStream b := by
  induction a with
  | nil => rfl
  | cons f rest ih => simp [checksumStream, ih]

/-- The hashed byte stream depends only on the non-excluded entries. -/
theorem checksumStream_eq_filter (t : List FileEntry) :
    checksumStream t =
      ((t.filter fun f => !excludedPath f.relpath).map entryBytes).flatten := by
  induction t with
  | nil => rfl
  | cons f rest ih =>
    by_cases h : excludedPath f.relpath <;>
      simp [checksumStream, List.filter_cons, h, ih]

/-- A nonempty relative path serialises to a nonempty byte list. -/
theorem pathBytes_ne_nil {s : String} (h : s ≠ "") : pathBytes s ≠ [] := by
  intro hnil
  exact h (String.ext (by simpa [pathBytes, List.map_eq_nil_iff] using hnil))

/-- C5: the fingerprint is deterministic and content-sensitive (md5
idealised as injective, so the digest is identified with the hashed byte
stream): recomputing it over an unchanged tree gives the same digest;
changing the bytes of a non-excluded regular file changes the digest;
adding or removing a non-excluded regular file changes the digest; and two
trees that agree outside the excluded `.cloudfoundry/` subtree have the
same digest. -/
theorem c5_calcChecksum_content_sensitive
    (tree pre post t1 t2 : List FileEntry) (f f' : FileEntry)
    (hpath : f'.relpath = f.relpath)
    (hexcl : excludedPath f.relpath = false)
    (hcontents : f.contents ≠ f'.contents)
    (hnonempty : f.relpath ≠ "")
    (hfilter : t1.filter (fun x => !excludedPath x.relpath)
             = t2.filter (fun x => !excludedPath x.relpath)) :
    CalcChecksum tree = CalcChecksum tree
      ∧ CalcChecksum (pre ++ f :: post) ≠ CalcChecksum (pre ++ f' :: post)
      ∧ CalcChecksum (pre ++ f :: post) ≠ CalcChecksum (pre ++ post)
      ∧ CalcChecksum t1 = CalcChecksum t2 := by
  refine ⟨rfl, ?_, ?_, ?_⟩
  · intro h
    unfold CalcChecksum at h
    rw [checksumStream_append, checksumStream_append] at h
    have h2 := List.append_cancel_left h
    simp only [checksumStream, entryBytes, hpath, hexcl] at h2
    simp at h2
    exact hcontents h2
  · intro h
    have hlen := congrArg List.length h
    unfold CalcChecksum at hlen
    rw [checksumStream_append, checksumStream_append] at hlen
    simp only [checksumStream, entryBytes, hexcl] at hlen
    have hpos : 0 < (pathBytes f.relpath).length :=
      List.length_pos.mpr (pathBytes_ne_nil hnonempty)
    simp [List.length_append] at hlen
    omega
  · unfold CalcChecksum
    rw [checksumStream_eq_filter, checksumStream_eq_filter, hfilter]

/-- Witness for C5 at a concrete tree: `f` and `f'` share the path `a` with
different bytes, and the excluded entry under `.cloudfoundry/` does not
affect the digest. -/
theorem c5_witness :
    CalcChecksum [⟨"a", [0]⟩] = CalcChecksum [⟨"a", [0]⟩]
      ∧ CalcChecksum ([] ++ ⟨"a", [0]⟩ :: []) ≠ CalcChecksum ([] ++ ⟨"a", [1]⟩ :: [])
      ∧ CalcChecksum ([] ++ ⟨"a", [0]⟩ :: []) ≠ CalcChecksum ([] ++ [])
      ∧ CalcChecksum [⟨"a", [0]⟩, ⟨".cloudfoundry/x", [5]⟩] = CalcChecksum [⟨"a", [0]⟩] :=
  c5_calcChecksum_content_sensitive
    [⟨"a", [0]⟩] [] [] [⟨"a", [0]⟩, ⟨".cloudfoundry/x", [5]⟩] [⟨"a", [0]⟩]
    ⟨"a", [0]⟩ ⟨"a", [1]⟩ rfl (by decide) (by decide) (by decide) (by decide)

/-! ## Claim C6 -/

/-- Two states agree on the process environment and the written env files. -/
def EnvEq (s1 s2 : St) : Prop :=
  (∀ k, s1.env k = s2.env k) ∧ (∀ k, s1.envFiles k = s2.envFiles k)

theorem EnvEq.refl (s : St) : EnvEq s s := ⟨fun _ => rfl, fun _ => rfl⟩

theorem EnvEq.trans {s1 s2 s3 : St} (h1 : EnvEq s1 s2) (h2 : EnvEq s2 s3) :
    EnvEq s1 s3 :=
  ⟨fun k => (h1.1 k).trans (h2.1 k), fun k => (h1.2 k).trans (h2.2 k)⟩

/-- `writeEnvFiles` leaves variables outside the map untouched. -/
theorem writeEnvFiles_not_mem (ps : List (String × String)) (c : Bool) (st : St)
    (k : String) (hk : k ∉ ps.map Prod.fst) :
    (writeEnvFiles ps c st).env k = st.env k
      ∧ (writeEnvFiles ps c st).envFiles k = st.envFiles k := by
  induction ps generalizing st with
  | nil => exact ⟨rfl, rfl⟩
  | cons p rest ih =>
    obtain ⟨v, d⟩ := p
    simp only [List.map_cons, List.mem_cons] at hk
    push_neg at hk
    obtain ⟨hkv, hkrest⟩ := hk
    by_cases hc : getenv st v = "" ∨ c = true
    · have hcond : (getenv st v = "" || c) = true := by
        rcases hc with h | h <;> simp [h]
      simp only [writeEnvFiles, hcond, if_true]
      have := ih (writeEnvFileSt v d (setenvSt v d st)) hkrest
      simpa [writeEnvFileSt, setenvSt, hkv] using this
    · push_neg at hc
      have hcond : (getenv st v = "" || c) = false := by
        simp [hc.1, hc.2]
      simp only [writeEnvFiles, hcond]
      simpa using ih st hkrest

/-- With `overwrite=false`, a variable whose current value is nonempty is
left untouched (in the environment and on disk). -/
theorem writeEnvFiles_nonempty_untouched (ps : List (String × String)) (st : St)
    (k : String) (hk : getenv st k ≠ "") :
    (writeEnvFiles ps false st).env k = st.env k
      ∧ (writeEnvFiles ps false st).envFiles k = st.envFiles k := by
  induction ps generalizing st with
  | nil => exact ⟨rfl, rfl⟩
  | cons p rest ih =>
    obtain ⟨v, d⟩ := p
    by_cases hv : getenv st v = ""
    · have hkv : k ≠ v := fun h => hk (h ▸ hv)
      simp only [writeEnvFiles, hv, if_true, Bool.or_false]
      have hk' : getenv (writeEnvFileSt v d (setenvSt v d st)) k ≠ "" := by
        simpa [getenv, writeEnvFileSt, setenvSt, hkv] using hk
      have := ih (writeEnvFileSt v d (setenvSt v d st)) hk'
      simpa [writeEnvFileSt, setenvSt, hkv] using this
    · simp only [writeEnvFiles, hv, Bool.or_false, if_false]
      exact ih st hk

/-- `writeEnvFiles` respects environment-and-files agreement. -/
theorem writeEnvFiles_envEq (ps : List (String × String)) (c : Bool)
    {s1 s2 : St} (h : EnvEq s1 s2) :
    EnvEq (writeEnvFiles ps c s1) (writeEnvFiles ps c s2) := by
  induction ps generalizing s1 s2 with
  | nil => exact h
  | cons p rest ih =>
    obtain ⟨v, d⟩ := p
    have hg : getenv s1 v = getenv s2 v := by simp [getenv, h.1 v]
    by_cases hc : (getenv s1 v = "" || c) = true
    · have hc2 : (getenv s2 v = "" || c) = true := by rw [← hg]; exact hc
      simp only [writeEnvFiles, hc, hc2, if_true]
      apply ih
      constructor
      · intro k
        simp only [writeEnvFileSt, setenvSt]
        by_cases hkv : k = v <;> simp [hkv, h.1 k]
      · intro k
        simp only [writeEnvFileSt, setenvSt]
        by_cases hkv : k = v <;> simp [hkv, h.2 k]
    · have hc2 : (getenv s2 v = "" || c) = false := by
        rw [← hg]; simpa using hc
      have hc1 : (getenv s1 v = "" || c) = false := by simpa using hc
      simp only [writeEnvFiles, hc1, hc2]
      exact ih h

/-- With `overwrite=true` every mapped variable is set (environment and
file) to its mapped value, replacing any existing value. -/
theorem writeEnvFiles_clobber_sets (ps : List (String × String)) (st : St)
    (hnodup : (ps.map Prod.fst).Nodup) (k val : String) (hmem : (k, val) ∈ ps) :
    (writeEnvFiles ps true st).env k = some val
      ∧ (writeEnvFiles ps true st).envFiles k = some val := by
  induction ps generalizing st with
  | nil => cases hmem
  | cons p rest ih =>
    obtain ⟨v, d⟩ := p
    simp only [List.map_cons, List.nodup_cons] at hnodup
    have hcond : (getenv st v = "" || true) = true := by simp
    simp only [writeEnvFiles, hcond, if_true]
    rcases List.mem_cons.mp hmem with heq | hmem2
    · injection heq with h1 h2
      subst h1; subst h2
      have hres := writeEnvFiles_not_mem rest true
        (writeEnvFileSt k val (setenvSt k val st)) k hnodup.1
      constructor
      · rw [hres.1]; simp [writeEnvFileSt, setenvSt]
      · rw [hres.2]; simp [writeEnvFileSt, setenvSt]
    · exact ih (writeEnvFileSt v d (setenvSt v d st)) hnodup.2 hmem2

/-- Unfolding equation of `writeEnvFiles` at a cons cell. -/
theorem writeEnvFiles_cons (v d : String) (rest : List (String × String))
    (c : Bool) (st : St) :
    writeEnvFiles ((v, d) :: rest) c st =
      if getenv st v = "" || c then
        writeEnvFiles rest c (writeEnvFileSt v d (setenvSt v d st))
      else
        writeEnvFiles rest c st := rfl

/-- Applying the defaults twice with `overwrite=false` produces the same
environment and env files as applying them once. -/
theorem writeEnvFiles_idem (ps : List (String × String)) (st : St)
    (hnodup : (ps.map Prod.fst).Nodup) :
    EnvEq (writeEnvFiles ps false (writeEnvFiles ps false st))
      (writeEnvFiles ps false st) := by
  induction ps generalizing st with
  | nil => exact EnvEq.refl st
  | cons p rest ih =>
    obtain ⟨v, d⟩ := p
    simp only [List.map_cons, List.nodup_cons] at hnodup
    obtain ⟨hv_rest, hnd⟩ := hnodup
    by_cases hv : getenv st v = ""
    · have e1 : writeEnvFiles ((v, d) :: rest) false st
          = writeEnvFiles rest false (writeEnvFileSt v d (setenvSt v d st)) := by
        rw [writeEnvFiles_cons, if_pos (by simp [hv])]
      rw [e1]
      have henvv : (writeEnvFiles rest false (writeEnvFileSt v d (setenvSt v d st))).env v
          = (writeEnvFileSt v d (setenvSt v d st)).env v :=
        (writeEnvFiles_not_mem rest false _ v hv_rest).1
      have hfv : (writeEnvFiles rest false (writeEnvFileSt v d (setenvSt v d st))).envFiles v
          = (writeEnvFileSt v d (setenvSt v d st)).envFiles v :=
        (writeEnvFiles_not_mem rest false _ v hv_rest).2
      have henvv2 : (writeEnvFileSt v d (setenvSt v d st)).env v = some d := by
        simp [writeEnvFileSt, setenvSt]
      have hfv2 : (writeEnvFileSt v d (setenvSt v d st)).envFiles v = some d := by
        simp [writeEnvFileSt, setenvSt]
      have hgv : getenv (writeEnvFiles rest false (writeEnvFileSt v d (setenvSt v d st))) v = d := by
        unfold getenv
        rw [henvv, henvv2]
        rfl
      by_cases hd : d = ""
      · have e2 : writeEnvFiles ((v, d) :: rest) false
              (writeEnvFiles rest false (writeEnvFileSt v d (setenvSt v d st)))
            = writeEnvFiles rest false (writeEnvFileSt v d (setenvSt v d
                (writeEnvFiles rest false (writeEnvFileSt v d (setenvSt v d st))))) := by
          rw [writeEnvFiles_cons, if_pos (by rw [hgv]; simp [hd])]
        rw [e2]
        have heq : EnvEq
            (writeEnvFileSt v d (setenvSt v d
              (writeEnvFiles rest false (writeEnvFileSt v d (setenvSt v d st)))))
            (writeEnvFiles rest false (writeEnvFileSt v d (setenvSt v d st))) := by
          constructor
          · intro k
            by_cases hkv : k = v
            · subst hkv
              rw [henvv, henvv2]
              simp [writeEnvFileSt, setenvSt]
            · simp [writeEnvFileSt, setenvSt, hkv]
          · intro k
            by_cases hkv : k = v
            · subst hkv
              rw [hfv, hfv2]
              simp [writeEnvFileSt, setenvSt]
            · simp [writeEnvFileSt, setenvSt, hkv]
        exact (writeEnvFiles_envEq rest false heq).trans (ih _ hnd)
      · have e2 : writeEnvFiles ((v, d) :: rest) false
              (writeEnvFiles rest false (writeEnvFileSt v d (setenvSt v d st)))
            = writeEnvFiles rest false
                (writeEnvFiles rest false (writeEnvFileSt v d (setenvSt v d st))) := by
          rw [writeEnvFiles_cons, if_neg (by rw [hgv]; simp [hd])]
        rw [e2]
        exact ih _ hnd
    · have e1 : writeEnvFiles ((v, d) :: rest) false st = writeEnvFiles rest false st := by
        rw [writeEnvFiles_cons, if_neg (by simp [hv])]
      rw [e1]
      have hgv : getenv (writeEnvFiles rest false st) v = getenv st v := by
        unfold getenv
        rw [(writeEnvFiles_not_mem rest false st v hv_rest).1]
      have e2 : writeEnvFiles ((v, d) :: rest) false (writeEnvFiles rest false st)
          = writeEnvFiles rest false (writeEnvFiles rest false st) := by
        rw [writeEnvFiles_cons, if_neg (by rw [hgv]; simp [hv])]
      rw [e2]
      exact ih st hnd

/-- The state used to refute C6 as stated: the variable `RAILS_ENV` is
present in the process environment, set to the empty string. -/
def stC6 : St :=
  { stBase with env := fun k => if k = "RAILS_ENV" then some "" else none }

/-- C6 counterexample: with `overwrite=false`, a variable that is present
in the process environment but holds the empty string is nevertheless set
(the code tests `os.Getenv(v) == ""`, which cannot distinguish an absent
variable from a present-but-empty one), contradicting "each variable is set
only when not already present in the process environment". -/
theorem c6_counterexample :
    (stC6.env "RAILS_ENV").isSome = true
      ∧ (writeEnvFiles [("RAILS_ENV", "production")] false stC6).env "RAILS_ENV"
          ≠ stC6.env "RAILS_ENV" := by
  constructor
  · rfl
  · intro h
    have : (some "production" : Option String) = some "" := h
    simp at this

/-- C6 (amended): applying the same defaults twice with `overwrite=false`
yields the same process environment and the same written env files as
applying them once; with `overwrite=false` a variable is set only when its
current `os.Getenv` value is empty (absent, or present with the empty
string) — a variable with a nonempty value is left untouched; with
`overwrite=true` every mapped variable is always set to its mapped value,
in the environment and in its env file, replacing any existing value. -/
theorem c6_writeEnvFiles_amended (ps : List (String × String)) (st : St)
    (hnodup : (ps.map Prod.fst).Nodup) :
    EnvEq (writeEnvFiles ps false (writeEnvFiles ps false st))
        (writeEnvFiles ps false st)
      ∧ (∀ k, getenv st k ≠ "" →
          (writeEnvFiles ps false st).env k = st.env k
            ∧ (writeEnvFiles ps false st).envFiles k = st.envFiles k)
      ∧ (∀ k val, (k, val) ∈ ps →
          (writeEnvFiles ps true st).env k = some val
            ∧ (writeEnvFiles ps true st).envFiles k = some val) :=
  ⟨writeEnvFiles_idem ps st hnodup,
   fun k hk => writeEnvFiles_nonempty_untouched ps st k hk,
   fun k val hmem => writeEnvFiles_clobber_sets ps st hnodup k val hmem⟩

/-- Witness for C6 (amended) at a concrete defaults map and the fresh
state `stBase` (no variable pre-set): the double non-clobbering pass
equals the single one, and the clobbering pass sets `RACK_ENV`. -/
theorem c6_witness :
    ((([("RAILS_ENV", "production"), ("RACK_ENV", "production")].map Prod.fst).Nodup)
      ∧ EnvEq
          (writeEnvFiles [("RAILS_ENV", "production"), ("RACK_ENV", "production")] false
            (writeEnvFiles [("RAILS_ENV", "production"), ("RACK_ENV", "production")] false stBase))
          (writeEnvFiles [("RAILS_ENV", "production"), ("RACK_ENV", "production")] false stBase))
      ∧ (writeEnvFiles [("RAILS_ENV", "production"), ("RACK_ENV", "production")] true stBase).env
          "RACK_ENV" = some "production" := by
  have hnodup : (([("RAILS_ENV", "production"), ("RACK_ENV", "production")].map Prod.fst).Nodup) := by
    simp
  have h := c6_writeEnvFiles_amended
    [("RAILS_ENV", "production"), ("RACK_ENV", "production")] stBase hnodup
  exact ⟨⟨hnodup, h.1⟩, (h.2.2 "RACK_ENV" "production" (by simp)).1⟩

/-! ## Claim C8 -/

/-- C8: with a Gemfile present, (a) when the declared engine is `"ruby"`
and the declared version is empty, `DetermineRuby` answers the catalog's
default ruby version and records the defaulting warning; (b) for any
declared engine other than `"ruby"` and `"jruby"`, `DetermineRuby` fails
with the unsupported-engine error. -/
theorem c8_determineRuby_default_and_unsupported (o1 o2 : Oracle) (st1 st2 : St)
    (dep : Dependency) (e : String)
    (hg1 : st1.appHasGemfile = true)
    (heng1 : o1.engine = .ok "ruby")
    (hver1 : o1.version = .ok "")
    (hdef1 : o1.defaultVersion "ruby" = .ok dep)
    (hg2 : st2.appHasGemfile = true)
    (heng2 : o2.engine = .ok e)
    (hne1 : e ≠ "ruby") (hne2 : e ≠ "jruby") :
    DetermineRuby o1 st1
        = (st1.warn (rubyVersionWarning dep.version), .ok ("ruby", dep.version))
      ∧ DetermineRuby o2 st2
        = (st2, .error ("Sorry, we do not support engine: " ++ e)) := by
  constructor
  · simp [DetermineRuby, hg1, heng1, hver1, hdef1]
  · simp [DetermineRuby, hg2, heng2, hne1, hne2]

/-- Witness for C8 at concrete oracles: an empty declared ruby version
defaults to 2.6.3 with the warning; engine "rbx" is rejected. -/
theorem c8_witness :
    DetermineRuby { oracleBase with version := .ok "" } stBase
        = (stBase.warn (rubyVersionWarning "2.6.3"), .ok ("ruby", "2.6.3"))
      ∧ DetermineRuby { oracleBase with engine := .ok "rbx" } stBase
        = (stBase, .error ("Sorry, we do not support engine: " ++ "rbx")) :=
  c8_determineRuby_default_and_unsupported
    { oracleBase with version := .ok "" } { oracleBase with engine := .ok "rbx" }
    stBase stBase ⟨"ruby", "2.6.3"⟩ "rbx"
    rfl rfl rfl rfl rfl rfl (by decide) (by decide)

/-! ## Claim C10 -/

/-- The probe loop of `NeedsNode` never resets the memoization flag. -/
theorem needsNodeLoop_cachedNeedsNode (o : Oracle) (names : List String) (st : St) :
    (needsNodeLoop o names st).cachedNeedsNode = st.cachedNeedsNode := by
  induction names generalizing st with
  | nil => rfl
  | cons n rest ih =>
    unfold needsNodeLoop
    split <;> simp [St.logEvent, ih]

/-- A call of `NeedsNode` on a state whose decision is already cached
returns that state and the cached boolean unchanged. -/
theorem needsNode_cached (o : Oracle) (s : St) (h : s.cachedNeedsNode = true) :
    NeedsNode o s = (s, s.needsNode) := by
  unfold NeedsNode
  rw [if_pos h]

/-- C10: `NeedsNode` never surfaces an error (its result type carries no
error component).  First conjunct: when every gem probe (`webpacker`,
`execjs`) answers with an error, the errors are discarded, both gems are
treated as absent and the first call returns `false`.  Second conjunct,
with no assumption on the probe answers: whatever boolean the first call
computes — `true` from a successful probe as much as `false` — is cached,
and any later call, under any external world, returns exactly the same
state and the same boolean without further probing (the state, including
the call trace, is unchanged). -/
theorem c10_needsNode_error_tolerant_memoized (o o2 : Oracle) (st : St)
    (hcache : st.cachedNeedsNode = false) :
    ((∀ name ∈ (["webpacker", "execjs"] : List String),
        ∃ e, o.hasGemVersion name = .error e) →
      (NeedsNode o st).2 = false)
      ∧ NeedsNode o2 (NeedsNode o st).1 = ((NeedsNode o st).1, (NeedsNode o st).2) := by
  constructor
  · intro herr
    obtain ⟨e1, he1⟩ := herr "webpacker" (by simp)
    obtain ⟨e2, he2⟩ := herr "execjs" (by simp)
    by_cases hn : o.nodeInstalled <;>
      simp [NeedsNode, needsNodeLoop, hcache, hn, he1, he2, St.logEvent]
  · have hc : (NeedsNode o st).1.cachedNeedsNode = true := by
      by_cases hn : o.nodeInstalled <;>
        simp [NeedsNode, hcache, hn, needsNodeLoop_cachedNeedsNode]
    have hb : (NeedsNode o st).1.needsNode = (NeedsNode o st).2 := by
      unfold NeedsNode
      split <;> rfl
    rw [needsNode_cached o2 _ hc, hb]

/-- Witness for C10 at a concrete oracle whose `webpacker` probe succeeds:
the hypothesis of the error-tolerance conjunct is vacuous there, and the
memoized second call returns the first call's `true` unchanged. -/
theorem c10_witness :
    ((∀ name ∈ (["webpacker", "execjs"] : List String),
        ∃ e, ({ oracleBase with hasGemVersion := fun g => .ok (g = "webpacker") }
            : Oracle).hasGemVersion name = .error e) →
      (NeedsNode { oracleBase with hasGemVersion := fun g => .ok (g = "webpacker") } stBase).2
        = false)
      ∧ NeedsNode oracleBase
          (NeedsNode { oracleBase with hasGemVersion := fun g => .ok (g = "webpacker") } stBase).1
        = ((NeedsNode { oracleBase with hasGemVersion := fun g => .ok (g = "webpacker") } stBase).1,
           (NeedsNode { oracleBase with hasGemVersion := fun g => .ok (g = "webpacker") } stBase).2) :=
  c10_needsNode_error_tolerant_memoized
    { oracleBase with hasGemVersion := fun g => .ok (g = "webpacker") } oracleBase stBase rfl

/-! ## Claim C7 -/

/-- C7: with no Gemfile present, (a) `DetermineRuby` resolves to engine
`"ruby"` at the catalog's default version; (b) `InstallBundler` installs
only the primary bundler — its whole call trace is the primary install and
its bin-link, it never invokes the secondary install (no install event into
`deps/bundler2`) nor the compatibility test, it succeeds and leaves the
primary version active; (c) `InstallGems` returns success immediately with
the state untouched. -/
theorem c7_no_manifest_defaults (o : Oracle) (st : St) (dep : Dependency) (v1 : String)
    (hg : st.appHasGemfile = false)
    (htrace : st.trace = [])
    (hdef : o.defaultVersion "ruby" = .ok dep)
    (hv1 : o.findMatchingVersion "1.X.X" o.bundlerVersions = some v1)
    (hinst : o.installDependencyRes ⟨"bundler", v1⟩ (depDir ++ ["bundler"]) = .ok ())
    (hlink : o.linkDirRes (depDir ++ ["bundler", "bin"]) = .ok ()) :
    DetermineRuby o st = (st, .ok ("ruby", dep.version))
      ∧ (InstallBundler o st).2 = .ok ()
      ∧ (InstallBundler o st).1.bundlerVersion = v1
      ∧ (InstallBundler o st).1.trace
          = [.installDependency ⟨"bundler", v1⟩ (depDir ++ ["bundler"]),
             .linkDirectoryInDepDir (depDir ++ ["bundler", "bin"])]
      ∧ Event.checkBundlerCompat ∉ (InstallBundler o st).1.trace
      ∧ (∀ dep2 : Dependency,
          Event.installDependency dep2 (depDir ++ ["bundler2"]) ∉ (InstallBundler o st).1.trace)
      ∧ InstallGems o st = (st, .ok ()) := by
  have hinst2 : o.installDependencyRes ⟨"bundler", v1⟩ ["deps", "bundler"] = .ok () := by
    simpa [depDir] using hinst
  have hlink2 : o.linkDirRes ["deps", "bundler", "bin"] = .ok () := by
    simpa [depDir] using hlink
  refine ⟨by simp [DetermineRuby, hg, hdef], ?_, ?_, ?_, ?_, ?_, by simp [InstallGems, hg]⟩ <;>
    simp [InstallBundler, installBundlerOne, hv1, hinst2, hlink2, hg, htrace,
      St.logEvent, St.addFilesUnder, St.setBundlerVersion, depDir]

/-- Witness for C7 at the concrete successful oracle with no Gemfile. -/
theorem c7_witness :
    DetermineRuby oracleBase { stBase with appHasGemfile := false }
        = ({ stBase with appHasGemfile := false }, .ok ("ruby", "2.6.3"))
      ∧ (InstallBundler oracleBase { stBase with appHasGemfile := false }).2 = .ok ()
      ∧ (InstallBundler oracleBase { stBase with appHasGemfile := false }).1.bundlerVersion
          = "1.7.12"
      ∧ (InstallBundler oracleBase { stBase with appHasGemfile := false }).1.trace
          = [.installDependency ⟨"bundler", "1.7.12"⟩ (depDir ++ ["bundler"]),
             .linkDirectoryInDepDir (depDir ++ ["bundler", "bin"])]
      ∧ Event.checkBundlerCompat
          ∉ (InstallBundler oracleBase { stBase with appHasGemfile := false }).1.trace
      ∧ (∀ dep2 : Dependency,
          Event.installDependency dep2 (depDir ++ ["bundler2"])
            ∉ (InstallBundler oracleBase { stBase with appHasGemfile := false }).1.trace)
      ∧ InstallGems oracleBase { stBase with appHasGemfile := false }
          = ({ stBase with appHasGemfile := false }, .ok ()) :=
  c7_no_manifest_defaults oracleBase { stBase with appHasGemfile := false }
    ⟨"ruby", "2.6.3"⟩ "1.7.12" rfl rfl rfl rfl rfl rfl

/-! ## Claims C3 and C4: helper lemmas -/

/-- Prefix test after cancelling a common leading segment. -/
theorem isPrefixOf_append_same (a b c : List String) :
    (a ++ b).isPrefixOf (a ++ c) = b.isPrefixOf c := by
  induction a with
  | nil => rfl
  | cons x xs ih => simp [List.isPrefixOf_cons₂, ih]

/-- `copyDirSt` succeeds when some file lies below the source directory,
appending the copied files. -/
theorem copyDirSt_of_mem (src dst : FPath) {st : St} {x : FPath}
    (hx : x ∈ st.fs) (hpre : src.isPrefixOf x = true) :
    copyDirSt src dst st
      = ({ st with
            fs := st.fs ++ (st.fs.filter (fun q => src.isPrefixOf q)).map
                    (fun q => dst ++ q.drop src.length) },
         .ok ()) := by
  unfold copyDirSt
  rw [if_neg]
  intro hc
  exact List.ne_nil_of_mem (List.mem_filter.mpr ⟨hx, hpre⟩) (List.isEmpty_iff.mp hc)

/-- `copyFileSt` succeeds when the source file is present. -/
theorem copyFileSt_of_mem (src dst : FPath) {st : St} (hx : src ∈ st.fs) :
    copyFileSt src dst st = ({ st with fs := st.fs ++ [dst] }, .ok ()) := by
  unfold copyFileSt
  rw [if_pos hx]

/-- Reduction of `installBundlerOne` on its success path. -/
theorem installBundlerOne_spec (o : Oracle) (st : St) (v1 : String)
    (hv1 : o.findMatchingVersion "1.X.X" o.bundlerVersions = some v1)
    (hi1 : o.installDependencyRes ⟨"bundler", v1⟩ (depDir ++ ["bundler"]) = .ok ())
    (hl1 : o.linkDirRes (depDir ++ ["bundler"] ++ ["bin"]) = .ok ()) :
    installBundlerOne o st =
      (((st.logEvent (.installDependency ⟨"bundler", v1⟩ (depDir ++ ["bundler"]))).addFilesUnder
          (depDir ++ ["bundler"]) (o.installFiles ⟨"bundler", v1⟩)).logEvent
        (.linkDirectoryInDepDir (depDir ++ ["bundler"] ++ ["bin"])), .ok v1) := by
  simp only [installBundlerOne, hv1, hi1, hl1]

/-- `copyDirSt` never changes the active bundler version. -/
theorem copyDirSt_bundlerVersion (src dst : FPath) (st : St) :
    (copyDirSt src dst st).1.bundlerVersion = st.bundlerVersion := by
  unfold copyDirSt; dsimp only; split <;> rfl

/-- `copyDirSt` never changes the recorded warnings. -/
theorem copyDirSt_warnings (src dst : FPath) (st : St) :
    (copyDirSt src dst st).1.warnings = st.warnings := by
  unfold copyDirSt; dsimp only; split <;> rfl

/-- `copyFileSt` never changes the active bundler version. -/
theorem copyFileSt_bundlerVersion (src dst : FPath) (st : St) :
    (copyFileSt src dst st).1.bundlerVersion = st.bundlerVersion := by
  unfold copyFileSt; split <;> rfl

/-- `copyFileSt` never changes the recorded warnings. -/
theorem copyFileSt_warnings (src dst : FPath) (st : St) :
    (copyFileSt src dst st).1.warnings = st.warnings := by
  unfold copyFileSt; split <;> rfl

/-- `copyDirSt` never changes the Gemfile-presence flag. -/
theorem copyDirSt_appHasGemfile (src dst : FPath) (st : St) :
    (copyDirSt src dst st).1.appHasGemfile = st.appHasGemfile := by
  unfold copyDirSt; dsimp only; split <;> rfl

/-- `copyFileSt` never changes the Gemfile-presence flag. -/
theorem copyFileSt_appHasGemfile (src dst : FPath) (st : St) :
    (copyFileSt src dst st).1.appHasGemfile = st.appHasGemfile := by
  unfold copyFileSt; split <;> rfl

/-- `installBundlerTwo` never changes the active bundler version. -/
theorem installBundlerTwo_bundlerVersion (o : Oracle) (st : St) :
    (installBundlerTwo o st).1.bundlerVersion = st.bundlerVersion := by
  unfold installBundlerTwo
  split
  · rfl
  · dsimp only
    split
    · simp [St.logEvent]
    · split
      · simp [St.removeAllUnder, St.logEvent, St.addFilesUnder,
          copyDirSt_bundlerVersion, copyFileSt_bundlerVersion]
      · split <;>
          simp [St.removeAllUnder, St.logEvent, St.addFilesUnder,
            copyDirSt_bundlerVersion, copyFileSt_bundlerVersion]

/-- `installBundlerTwo` never changes the recorded warnings. -/
theorem installBundlerTwo_warnings (o : Oracle) (st : St) :
    (installBundlerTwo o st).1.warnings = st.warnings := by
  unfold installBundlerTwo
  split
  · rfl
  · dsimp only
    split
    · simp [St.logEvent]
    · split
      · simp [St.removeAllUnder, St.logEvent, St.addFilesUnder,
          copyDirSt_warnings, copyFileSt_warnings]
      · split <;>
          simp [St.removeAllUnder, St.logEvent, St.addFilesUnder,
            copyDirSt_warnings, copyFileSt_warnings]

/-- `installBundlerTwo` never changes the Gemfile-presence flag. -/
theorem installBundlerTwo_appHasGemfile (o : Oracle) (st : St) :
    (installBundlerTwo o st).1.appHasGemfile = st.appHasGemfile := by
  unfold installBundlerTwo
  split
  · rfl
  · dsimp only
    split
    · simp [St.logEvent]
    · split
      · simp [St.removeAllUnder, St.logEvent, St.addFilesUnder,
          copyDirSt_appHasGemfile, copyFileSt_appHasGemfile]
      · split <;>
          simp [St.removeAllUnder, St.logEvent, St.addFilesUnder,
            copyDirSt_appHasGemfile, copyFileSt_appHasGemfile]

/-- Files survive `copyDirSt` (it only appends copies). -/
theorem copyDirSt_fs_mono (src dst : FPath) (st : St) {q : FPath} (hq : q ∈ st.fs) :
    q ∈ (copyDirSt src dst st).1.fs := by
  unfold copyDirSt; dsimp only; split
  · exact hq
  · exact List.mem_append_left _ hq

/-- Files survive `copyFileSt` (it only appends the copy). -/
theorem copyFileSt_fs_mono (src dst : FPath) (st : St) {q : FPath} (hq : q ∈ st.fs) :
    q ∈ (copyFileSt src dst st).1.fs := by
  unfold copyFileSt; split
  · exact List.mem_append_left _ hq
  · exact hq

/-- A file outside the removed subtree survives `removeAllUnder`. -/
theorem removeAllUnder_mem {st : St} {p q : FPath} (hq : q ∈ st.fs)
    (hpre : p.isPrefixOf q = false) :
    q ∈ (st.removeAllUnder p).fs := by
  simp [St.removeAllUnder, List.mem_filter, hq, hpre]

/-- `copyDirSt` reports success when a file lies below the source. -/
theorem copyDirSt_snd_of_mem (src dst : FPath) {st : St} {x : FPath}
    (hx : x ∈ st.fs) (hpre : src.isPrefixOf x = true) :
    (copyDirSt src dst st).2 = .ok () := by
  rw [copyDirSt_of_mem src dst hx hpre]

/-- `copyFileSt` reports success when the source file is present. -/
theorem copyFileSt_snd_of_mem (src dst : FPath) {st : St} (hx : src ∈ st.fs) :
    (copyFileSt src dst st).2 = .ok () := by
  rw [copyFileSt_of_mem src dst hx]

/-- Success path of `installBundlerTwo`: with a matching `2.X.X` version
whose archive provides the gem subtree and the gemspec, it returns that
version, and every pre-existing file outside `deps/bundler2` survives. -/
theorem installBundlerTwo_ok (o : Oracle) (st : St) (v2 : String) (pgem : FPath)
    (hv2 : o.findMatchingVersion "2.X.X" o.bundlerVersions = some v2)
    (hi2 : o.installDependencyRes ⟨"bundler", v2⟩ (depDir ++ ["bundler2"]) = .ok ())
    (hp : pgem ∈ o.installFiles ⟨"bundler", v2⟩)
    (hppre : (["gems", "bundler-" ++ v2] : FPath).isPrefixOf pgem = true)
    (hspec : (["specifications", "bundler-" ++ v2 ++ ".gemspec"] : FPath)
        ∈ o.installFiles ⟨"bundler", v2⟩) :
    (installBundlerTwo o st).2 = .ok v2
      ∧ (∀ q ∈ st.fs, ((depDir ++ ["bundler2"] : FPath)).isPrefixOf q = false →
          q ∈ (installBundlerTwo o st).1.fs) := by
  have hmemgem : (depDir ++ ["bundler2"]) ++ pgem ∈
      ((st.logEvent (.installDependency ⟨"bundler", v2⟩ (depDir ++ ["bundler2"]))).addFilesUnder
        (depDir ++ ["bundler2"]) (o.installFiles ⟨"bundler", v2⟩)).fs := by
    show (depDir ++ ["bundler2"]) ++ pgem ∈
      (st.logEvent (.installDependency ⟨"bundler", v2⟩ (depDir ++ ["bundler2"]))).fs
        ++ (o.installFiles ⟨"bundler", v2⟩).map (fun r => (depDir ++ ["bundler2"]) ++ r)
    exact List.mem_append_right _ (List.mem_map.mpr ⟨pgem, hp, rfl⟩)
  have hmemspec : (depDir ++ ["bundler2"]) ++ ["specifications", "bundler-" ++ v2 ++ ".gemspec"] ∈
      ((st.logEvent (.installDependency ⟨"bundler", v2⟩ (depDir ++ ["bundler2"]))).addFilesUnder
        (depDir ++ ["bundler2"]) (o.installFiles ⟨"bundler", v2⟩)).fs := by
    show _ ∈
      (st.logEvent (.installDependency ⟨"bundler", v2⟩ (depDir ++ ["bundler2"]))).fs
        ++ (o.installFiles ⟨"bundler", v2⟩).map (fun r => (depDir ++ ["bundler2"]) ++ r)
    exact List.mem_append_right _ (List.mem_map.mpr ⟨_, hspec, rfl⟩)
  have hpre1 : ((depDir ++ ["bundler2"]) ++ ["gems", "bundler-" ++ v2]).isPrefixOf
      ((depDir ++ ["bundler2"]) ++ pgem) = true := by
    rw [isPrefixOf_append_same]; exact hppre
  constructor
  · simp only [installBundlerTwo, hv2, hi2]
    split
    · next e heq =>
      have hok := copyDirSt_snd_of_mem ((depDir ++ ["bundler2"]) ++ ["gems", "bundler-" ++ v2])
        (depDir ++ ["bundler", "gems", "bundler-" ++ v2]) hmemgem hpre1
      rw [heq] at hok
      simp at hok
    · next a heq =>
      split
      · next e heq2 =>
        have hok := copyFileSt_snd_of_mem
          ((depDir ++ ["bundler2"]) ++ ["specifications", "bundler-" ++ v2 ++ ".gemspec"])
          (depDir ++ ["bundler", "specifications", "bundler-" ++ v2 ++ ".gemspec"])
          (copyDirSt_fs_mono ((depDir ++ ["bundler2"]) ++ ["gems", "bundler-" ++ v2])
            (depDir ++ ["bundler", "gems", "bundler-" ++ v2]) _ hmemspec)
        rw [heq2] at hok
        simp at hok
      · rfl
  · intro q hq hqpre
    have hqB : q ∈
        ((st.logEvent (.installDependency ⟨"bundler", v2⟩ (depDir ++ ["bundler2"]))).addFilesUnder
          (depDir ++ ["bundler2"]) (o.installFiles ⟨"bundler", v2⟩)).fs := by
      show q ∈
        (st.logEvent (.installDependency ⟨"bundler", v2⟩ (depDir ++ ["bundler2"]))).fs
          ++ (o.installFiles ⟨"bundler", v2⟩).map (fun r => (depDir ++ ["bundler2"]) ++ r)
      exact List.mem_append_left _ hq
    simp only [installBundlerTwo, hv2, hi2]
    split
    · next e heq =>
      have hok := copyDirSt_snd_of_mem ((depDir ++ ["bundler2"]) ++ ["gems", "bundler-" ++ v2])
        (depDir ++ ["bundler", "gems", "bundler-" ++ v2]) hmemgem hpre1
      rw [heq] at hok
      simp at hok
    · next a heq =>
      split
      · next e heq2 =>
        have hok := copyFileSt_snd_of_mem
          ((depDir ++ ["bundler2"]) ++ ["specifications", "bundler-" ++ v2 ++ ".gemspec"])
          (depDir ++ ["bundler", "specifications", "bundler-" ++ v2 ++ ".gemspec"])
          (copyDirSt_fs_mono ((depDir ++ ["bundler2"]) ++ ["gems", "bundler-" ++ v2])
            (depDir ++ ["bundler", "gems", "bundler-" ++ v2]) _ hmemspec)
        rw [heq2] at hok
        simp at hok
      · exact removeAllUnder_mem
          (copyFileSt_fs_mono _ _ _ (copyDirSt_fs_mono _ _ _ hqB)) hqpre

/-- Reduction of `uninstallBundlerTwo` when the `2.X.X` constraint
resolves: it removes the secondary gem subtree and gemspec. -/
theorem uninstallBundlerTwo_spec (o : Oracle) (st : St) (v2 : String)
    (hv2 : o.findMatchingVersion "2.X.X" o.bundlerVersions = some v2) :
    uninstallBundlerTwo o st
      = ((st.removeAllUnder (depDir ++ ["bundler", "gems", "bundler-" ++ v2])).removeAllUnder
          (depDir ++ ["bundler", "specifications", "bundler-" ++ v2 ++ ".gemspec"]), .ok ()) := by
  simp only [uninstallBundlerTwo, hv2]

/-- `deps/bundler2` is never a prefix of a path below `deps/bundler`. -/
theorem bundler2_prefix_disjoint (p : FPath) :
    ((depDir ++ ["bundler2"] : FPath)).isPrefixOf ((depDir ++ ["bundler"]) ++ p) = false := by
  simp [depDir, List.isPrefixOf_cons₂]

/-! ## Claim C3 -/

/-- C3: with a Gemfile present and both bundler constraints resolving (the
secondary archive providing its gem subtree and gemspec), after a negative
compatibility result no file of the secondary installation remains — no
path below `deps/bundler/gems/bundler-<v2>` and no path at or below the
secondary gemspec — and the active bundler version is the primary `v1`;
after a positive result the active version is the secondary `v2` and every
file the primary install materialised under `deps/bundler` is still
present. -/
theorem c3_installBundler_rollback_or_promote (o : Oracle) (st : St)
    (v1 v2 : String) (pgem : FPath)
    (hg : st.appHasGemfile = true)
    (hv1 : o.findMatchingVersion "1.X.X" o.bundlerVersions = some v1)
    (hi1 : o.installDependencyRes ⟨"bundler", v1⟩ (depDir ++ ["bundler"]) = .ok ())
    (hl1 : o.linkDirRes (depDir ++ ["bundler"] ++ ["bin"]) = .ok ())
    (hv2 : o.findMatchingVersion "2.X.X" o.bundlerVersions = some v2)
    (hi2 : o.installDependencyRes ⟨"bundler", v2⟩ (depDir ++ ["bundler2"]) = .ok ())
    (hp : pgem ∈ o.installFiles ⟨"bundler", v2⟩)
    (hppre : (["gems", "bundler-" ++ v2] : FPath).isPrefixOf pgem = true)
    (hspec : (["specifications", "bundler-" ++ v2 ++ ".gemspec"] : FPath)
        ∈ o.installFiles ⟨"bundler", v2⟩) :
    (o.checkBundler2Compat = .ok false →
        (InstallBundler o st).1.bundlerVersion = v1
          ∧ ∀ q ∈ (InstallBundler o st).1.fs,
              (depDir ++ ["bundler", "gems", "bundler-" ++ v2] : FPath).isPrefixOf q = false
                ∧ (depDir ++ ["bundler", "specifications", "bundler-" ++ v2 ++ ".gemspec"]
                    : FPath).isPrefixOf q = false)
      ∧ (o.checkBundler2Compat = .ok true →
          (InstallBundler o st).1.bundlerVersion = v2
            ∧ ∀ p ∈ o.installFiles ⟨"bundler", v1⟩,
                (depDir ++ ["bundler"]) ++ p ∈ (InstallBundler o st).1.fs) := by
  have h1e : ∀ s : St, installBundlerOne o s =
      (((s.logEvent (.installDependency ⟨"bundler", v1⟩ (depDir ++ ["bundler"]))).addFilesUnder
          (depDir ++ ["bundler"]) (o.installFiles ⟨"bundler", v1⟩)).logEvent
        (.linkDirectoryInDepDir (depDir ++ ["bundler"] ++ ["bin"])), .ok v1) :=
    fun s => installBundlerOne_spec o s v1 hv1 hi1 hl1
  have h2e : ∀ s : St, (installBundlerTwo o s).2 = .ok v2 :=
    fun s => (installBundlerTwo_ok o s v2 pgem hv2 hi2 hp hppre hspec).1
  have h2m : ∀ s : St, ∀ q ∈ s.fs,
      ((depDir ++ ["bundler2"] : FPath)).isPrefixOf q = false →
        q ∈ (installBundlerTwo o s).1.fs :=
    fun s => (installBundlerTwo_ok o s v2 pgem hv2 hi2 hp hppre hspec).2
  have hue : ∀ s : St, uninstallBundlerTwo o s
      = ((s.removeAllUnder (depDir ++ ["bundler", "gems", "bundler-" ++ v2])).removeAllUnder
          (depDir ++ ["bundler", "specifications", "bundler-" ++ v2 ++ ".gemspec"]), .ok ()) :=
    fun s => uninstallBundlerTwo_spec o s v2 hv2
  constructor
  · intro hcpt
    constructor
    · simp [InstallBundler, h1e, h2e, hcpt, hue, hg,
        St.setBundlerVersion, St.logEvent, St.addFilesUnder, St.warn, St.removeAllUnder]
    · intro q hq
      simp only [InstallBundler, h1e, h2e, hcpt, hue, hg,
        St.setBundlerVersion, St.logEvent, St.addFilesUnder, St.warn, St.removeAllUnder] at hq
      simp [List.mem_filter] at hq
      exact ⟨hq.2.2, hq.2.1⟩
  · intro hcpt
    constructor
    · simp [InstallBundler, h1e, h2e, hcpt, hg,
        St.setBundlerVersion, St.logEvent, St.addFilesUnder]
    · intro p hpmem
      simp [InstallBundler, h1e, h2e, hcpt, hg,
        St.setBundlerVersion, St.logEvent, St.addFilesUnder]
      refine h2m _ _ ?_ (bundler2_prefix_disjoint p)
      show (depDir ++ ["bundler"]) ++ p ∈
        st.fs ++ List.map (fun r => depDir ++ ["bundler"] ++ r)
          (o.installFiles ⟨"bundler", v1⟩)
      exact List.mem_append_right _ (List.mem_map.mpr ⟨p, hpmem, rfl⟩)

/-- Witness for C3 at the concrete oracle: bundler 1.7.12 primary,
2.0.1 secondary, the secondary archive holding its gem tree and gemspec. -/
theorem c3_witness :
    (oracleBase.checkBundler2Compat = .ok false →
        (InstallBundler oracleBase stBase).1.bundlerVersion = "1.7.12"
          ∧ ∀ q ∈ (InstallBundler oracleBase stBase).1.fs,
              (depDir ++ ["bundler", "gems", "bundler-" ++ "2.0.1"] : FPath).isPrefixOf q = false
                ∧ (depDir ++ ["bundler", "specifications", "bundler-" ++ "2.0.1" ++ ".gemspec"]
                    : FPath).isPrefixOf q = false)
      ∧ (oracleBase.checkBundler2Compat = .ok true →
          (InstallBundler oracleBase stBase).1.bundlerVersion = "2.0.1"
            ∧ ∀ p ∈ oracleBase.installFiles ⟨"bundler", "1.7.12"⟩,
                (depDir ++ ["bundler"]) ++ p ∈ (InstallBundler oracleBase stBase).1.fs) :=
  c3_installBundler_rollback_or_promote oracleBase stBase "1.7.12" "2.0.1"
    ["gems", "bundler-2.0.1", "lib", "bundler.rb"]
    rfl rfl rfl rfl rfl rfl (by decide) (by decide) (by decide)

/-! ## Claim C4 -/

/-- C4: under the same happy-path installs, if the compatibility test
itself fails, `InstallBundler` aborts with exactly that error; if the test
reports a negative result without error, `InstallBundler` returns success,
surfaces the incompatibility warning, and reverts the active bundler
version to the primary — the negative result is never turned into an
error. -/
theorem c4_installBundler_compat_error_vs_negative (o : Oracle) (st : St)
    (v1 v2 : String) (pgem : FPath)
    (hg : st.appHasGemfile = true)
    (hv1 : o.findMatchingVersion "1.X.X" o.bundlerVersions = some v1)
    (hi1 : o.installDependencyRes ⟨"bundler", v1⟩ (depDir ++ ["bundler"]) = .ok ())
    (hl1 : o.linkDirRes (depDir ++ ["bundler"] ++ ["bin"]) = .ok ())
    (hv2 : o.findMatchingVersion "2.X.X" o.bundlerVersions = some v2)
    (hi2 : o.installDependencyRes ⟨"bundler", v2⟩ (depDir ++ ["bundler2"]) = .ok ())
    (hp : pgem ∈ o.installFiles ⟨"bundler", v2⟩)
    (hppre : (["gems", "bundler-" ++ v2] : FPath).isPrefixOf pgem = true)
    (hspec : (["specifications", "bundler-" ++ v2 ++ ".gemspec"] : FPath)
        ∈ o.installFiles ⟨"bundler", v2⟩) :
    (∀ e, o.checkBundler2Compat = .error e → (InstallBundler o st).2 = .error e)
      ∧ (o.checkBundler2Compat = .ok false →
          (InstallBundler o st).2 = .ok ()
            ∧ bundlerTwoWarning ∈ (InstallBundler o st).1.warnings
            ∧ (InstallBundler o st).1.bundlerVersion = v1) := by
  have h1e : ∀ s : St, installBundlerOne o s =
      (((s.logEvent (.installDependency ⟨"bundler", v1⟩ (depDir ++ ["bundler"]))).addFilesUnder
          (depDir ++ ["bundler"]) (o.installFiles ⟨"bundler", v1⟩)).logEvent
        (.linkDirectoryInDepDir (depDir ++ ["bundler"] ++ ["bin"])), .ok v1) :=
    fun s => installBundlerOne_spec o s v1 hv1 hi1 hl1
  have h2e : ∀ s : St, (installBundlerTwo o s).2 = .ok v2 :=
    fun s => (installBundlerTwo_ok o s v2 pgem hv2 hi2 hp hppre hspec).1
  have hue : ∀ s : St, uninstallBundlerTwo o s
      = ((s.removeAllUnder (depDir ++ ["bundler", "gems", "bundler-" ++ v2])).removeAllUnder
          (depDir ++ ["bundler", "specifications", "bundler-" ++ v2 ++ ".gemspec"]), .ok ()) :=
    fun s => uninstallBundlerTwo_spec o s v2 hv2
  constructor
  · intro e hcpt
    simp [InstallBundler, h1e, h2e, hcpt, hg,
      St.setBundlerVersion, St.logEvent, St.addFilesUnder]
  · intro hcpt
    refine ⟨?_, ?_, ?_⟩ <;>
      simp [InstallBundler, h1e, h2e, hcpt, hue, hg, installBundlerTwo_warnings,
        St.setBundlerVersion, St.logEvent, St.addFilesUnder, St.warn, St.removeAllUnder]

/-- Witness for C4 at the concrete oracle with a negative compatibility
result. -/
theorem c4_witness :
    (∀ e, ({ oracleBase with checkBundler2Compat := .ok false } : Oracle).checkBundler2Compat
          = .error e →
        (InstallBundler { oracleBase with checkBundler2Compat := .ok false } stBase).2 = .error e)
      ∧ (({ oracleBase with checkBundler2Compat := .ok false } : Oracle).checkBundler2Compat
            = .ok false →
          (InstallBundler { oracleBase with checkBundler2Compat := .ok false } stBase).2 = .ok ()
            ∧ bundlerTwoWarning
                ∈ (InstallBundler { oracleBase with checkBundler2Compat := .ok false } stBase).1.warnings
            ∧ (InstallBundler { oracleBase with checkBundler2Compat := .ok false } stBase).1.bundlerVersion
                = "1.7.12") :=
  c4_installBundler_compat_error_vs_negative
    { oracleBase with checkBundler2Compat := .ok false } stBase "1.7.12" "2.0.1"
    ["gems", "bundler-2.0.1", "lib", "bundler.rb"]
    rfl rfl rfl rfl rfl rfl (by decide) (by decide) (by decide)

/-! ## Claim C1 -/

/-- The external world of the C1 counterexample: everything succeeds until
`bundle install`, which fails. -/
def oracleC1 : Oracle :=
  { oracleBase with runBundleInstall := .error "bundle install failed" }

/-- C1 counterexample: the scratch copy is created successfully
(`CopyDirToTemp` returns `tmp/app123`), `bundle install` then fails, and
`InstallGems` returns that error with the scratch directory still in
existence — there is no `defer os.RemoveAll(tempDir)`; the removal is only
the last statement of the success path.  This refutes "the scratch copy
directory no longer exists when InstallGems returns, regardless of whether
the step returns success or an error". -/
theorem c1_counterexample :
    oracleC1.copyDirToTemp = .ok ["tmp", "app123"]
      ∧ (InstallGems oracleC1 stBase).2 = .error "bundle install failed"
      ∧ ["tmp", "app123"] ∈ (InstallGems oracleC1 stBase).1.scratchDirs := by
  refine ⟨rfl, rfl, ?_⟩
  decide

/-- C1 (amended): when the scratch copy is created successfully and every
subsequent step of `InstallGems` succeeds (no Windows lock, no local
bundler config in the scratch copy, `bundle install`, binstub regeneration
and `bundle clean` all succeed, the binstubs directory is absent, and the
lock-file copy for finalize succeeds), `InstallGems` returns success and
the scratch copy directory no longer exists; when an intermediate step
fails, `InstallGems` returns without removing the scratch copy. -/
theorem c1_installGems_cleanup_on_success (o : Oracle) (st : St) (d : FPath)
    (r : String) (b : Bool)
    (hg : st.appHasGemfile = true)
    (hcopy : o.copyDirToTemp = .ok d)
    (hrel : o.relGemfile = .ok r)
    (hwin : o.hasWindowsGemfileLock = .ok false)
    (hcfg : o.tempBundleConfigExists = .ok false)
    (hlock : o.gemfileLockExistsPre = .ok b)
    (hrun : o.runBundleInstall = .ok ())
    (hbin : o.runBundleBinstubs = .ok ())
    (hcb : o.copyBundleBinstub = .ok ())
    (hclean : o.runBundleClean = .ok ())
    (hread : o.readBinstubs = .error .notExist)
    (hcfg2 : o.tempBundleConfigExistsPost = .ok false)
    (hlock2 : o.gemfileLockExistsPost = .ok true)
    (hcopylock : o.copyGemfileLock = .ok ()) :
    (InstallGems o st).2 = .ok ()
      ∧ d ∉ (InstallGems o st).1.scratchDirs := by
  constructor <;>
    simp [InstallGems, installGemsWithScratch, installGemsRunBundler,
      installGemsAfterClean, installGemsSaveConfig, installGemsSaveLock,
      installGemsCleanup, hg, hcopy, hrel, hwin, hcfg, hlock, hrun, hbin,
      hcb, hclean, hread, hcfg2, hlock2, hcopylock, St.logEvent,
      List.mem_filter]

/-- Witness for C1 (amended) at the concrete fully-successful oracle. -/
theorem c1_witness :
    (InstallGems oracleBase stBase).2 = .ok ()
      ∧ ["tmp", "app123"] ∉ (InstallGems oracleBase stBase).1.scratchDirs :=
  c1_installGems_cleanup_on_success oracleBase stBase ["tmp", "app123"]
    "Gemfile" true rfl rfl rfl rfl rfl rfl rfl rfl rfl rfl rfl rfl rfl rfl

/-! ## Claim C2 -/

/-- The external world of the C2 failing input: creating the scratch copy
of the staging directory fails. -/
def oracleC2 : Oracle :=
  { oracleBase with copyDirToTemp := .error "Could not copy build dir to temp" }

/-- C2: the code contradicts the claim (and the spec's intent): when
`TempDir.CopyDirToTemp` fails, `InstallGems` executes
`if err != nil { return nil }` (supply.go:596-598) and reports success —
the error is silently swallowed and no dependency install happens, where
every other failure in the function is propagated.  The model evaluates
the code at the failing input: the result is `ok`, not an error. -/
theorem c2_copyDirToTemp_failure_swallowed :
    oracleC2.copyDirToTemp = .error "Could not copy build dir to temp"
      ∧ stBase.appHasGemfile = true
      ∧ (InstallGems oracleC2 stBase).2 = .ok () :=
  ⟨rfl, rfl, rfl⟩
